import Mathlib

/-!
Shallow embedding of the checkout-saga MCP server
(src/mcp-server/mcpserver.py) from the Order-Processing-Pipeline
repository, together with theorems settling the specification claims.

JSON payloads exchanged with the two backend services are modelled by the
inductive `JVal`; Python dictionary access (dict.get with a default,
membership tests), Python truthiness and the short-circuiting `or`
operator are modelled by `JVal.getD`, `JVal.hasKey`, `JVal.truthy` and
`JVal.pyOr`.  Monetary amounts are carried as exact rationals; the one
floating-point multiplication the code performs (total_amount * 1.1) is
modelled bit-faithfully by `roundDouble`, IEEE-754 binary64 rounding of
the exact product, with the literal 1.1 taken at its double value.

Each remote call made by a saga run is recorded in a trace of `Req`
values, and the responses the remote services would give are supplied up
front in an `Env` record (each endpoint is called at most once per run,
matching the straight-line code).
-/

namespace OrderPipeline

/-- JSON-like values, as produced by response.json() in the Python code. -/
inductive JVal where
  | jnull
  | jbool (b : Bool)
  | jnum (q : ℚ)
  | jstr (s : String)
  | jarr (elems : List JVal)
  | jobj (fields : List (String × JVal))

namespace JVal

/-- First binding for a key in an association list of fields. -/
def lookupField : List (String × JVal) → String → Option JVal
  | [], _ => none
  | (k, v) :: rest, key => if k = key then some v else lookupField rest key

/-- Python d[k] / d.get(k) lookup; none on a missing key or a non-dict. -/
def get? : JVal → String → Option JVal
  | .jobj fields, k => lookupField fields k
  | _, _ => none

/-- Python dict.get(k, default): the stored value, or the default. -/
def getD (v : JVal) (k : String) (d : JVal) : JVal := (v.get? k).getD d

/-- Python membership test: "k" in d. -/
def hasKey (v : JVal) (k : String) : Bool := (v.get? k).isSome

/-- Python truthiness of a JSON value: None, False, 0, the empty string,
the empty list and the empty dict are falsy. -/
def truthy : JVal → Bool
  | .jnull => false
  | .jbool b => b
  | .jnum q => q != 0
  | .jstr s => s != ""
  | .jarr elems => !elems.isEmpty
  | .jobj fields => !fields.isEmpty

/-- Python short-circuiting a or b: a when a is truthy, otherwise b. -/
def pyOr (a b : JVal) : JVal := if a.truthy then a else b

/-- Numeric reading of a value (amounts in the saga); 0 otherwise. -/
def toRat : JVal → ℚ
  | .jnum q => q
  | _ => 0

/-- String reading of a value; "" on non-strings. -/
def asStr : JVal → String
  | .jstr s => s
  | _ => ""

/-- List reading of a value; [] on non-arrays. -/
def asArr : JVal → List JVal
  | .jarr elems => elems
  | _ => []

end JVal

/-- One remote request issued by a tool handler, with its JSON body. -/
inductive Req where
  | viewCart (customerId : String)
  | listItems (merchantId : String)
  | updateCartItem (body : JVal)
  | createMandate (body : JVal)
  | createIntent (body : JVal)
  | authorize (body : JVal)
  | execute (body : JVal)
  | clearCart (customerId : String)

/-- Requests addressed to the AP2 payment adapter. -/
def Req.isPaymentReq : Req → Bool
  | .createMandate _ => true
  | .createIntent _ => true
  | .authorize _ => true
  | .execute _ => true
  | _ => false

/-- Terminal result of one checkout saga run.  Each constructor
corresponds to one return site of checkout / checkout_cart in
mcpserver.py, carrying the dynamic parts of the returned message. -/
inductive Outcome where
  | missingCustomerId
  | cartFetchError (e : JVal)
  | emptyCart
  | mandateError (e : JVal)
  | intentError (e : JVal)
  | noIntentId
  | authorizeError (e : JVal)
  | authDenied (message : JVal)
  | noAuthorizationId
  | executeError (e : JVal)
  | missingInvoice (status : JVal)
  | success (orderId paymentId executionId status invoiceUrl : JVal)

/-- The responses the remote services give to each endpoint during one
run (each endpoint is hit at most once per run), plus the ambient data
the code reads: the formatted now+365d timestamp and the uuid4 hex used
for the generated order id in checkout_cart. -/
structure Env where
  viewCart : JVal
  listItems : JVal
  updateCart : JVal
  mandate : JVal
  intent : JVal
  authorize : JVal
  execute : JVal
  clearCart : JVal
  futureDate : String
  uuidHex : String

/-! ### Transport helpers (make_restate_request / make_ap2_request)

The two request helpers wrap one HTTP round trip and normalize every
failure into a dictionary with an "error" entry.  The possible outcomes
of the underlying round trip are modelled by `HttpOutcome`; note that in
httpx both the non-2xx status exception and the network-level request
exception are subclasses of HTTPError, so make_restate_request maps both
through its single HTTPError handler. -/

/-- Outcome of one underlying HTTP round trip as seen by the helpers: a
parsed 2xx JSON body; a non-2xx status raised by raise_for_status,
carrying the status code, the retrievable response body text ("" when it
could not be read) and the exception text; a network-level request
failure (connection refused, timeout); or any other exception, for
example a malformed response body failing JSON parsing. -/
inductive HttpOutcome where
  | ok (body : JVal)
  | statusError (code : ℕ) (bodyText : String) (excText : String)
  | requestFailure (excText : String)
  | otherFailure (excText : String)

/-- make_restate_request, lines 70-97: on success returns the parsed
body; every httpx.HTTPError (both non-2xx statuses and request-level
failures) becomes a dictionary whose "error" entry is "HTTP error: "
followed by the exception text; any other exception becomes one whose
"error" entry is "Request failed: " followed by the exception text. -/
def make_restate_request : HttpOutcome → JVal
  | .ok body => body
  | .statusError _ _ excText => .jobj [("error", .jstr ("HTTP error: " ++ excText))]
  | .requestFailure excText => .jobj [("error", .jstr ("HTTP error: " ++ excText))]
  | .otherFailure excText => .jobj [("error", .jstr ("Request failed: " ++ excText))]

/-- make_ap2_request, lines 99-137: on success returns the parsed body;
a non-2xx status becomes a dictionary whose "error" entry is "AP2 HTTP
error <code>: " followed by the response body text, falling back to the
exception text when the body was not retrievable; request-level failures
and other exceptions get their own messages. -/
def make_ap2_request : HttpOutcome → JVal
  | .ok body => body
  | .statusError code bodyText excText =>
      .jobj [("error", .jstr ("AP2 HTTP error " ++ toString code ++ ": " ++
        (if bodyText == "" then excText else bodyText)))]
  | .requestFailure excText => .jobj [("error", .jstr ("AP2 request error: " ++ excText))]
  | .otherFailure excText => .jobj [("error", .jstr ("AP2 request failed: " ++ excText))]

/-- Substring test (used to state what an error message carries). -/
def strContainsSub (s sub : String) : Bool :=
  s.toList.tails.any (fun t => sub.toList.isPrefixOf t)

/-! ### Product resolution (resolve_product_id, lines 360-400) -/

/-- Python str.startswith, on the character lists of the strings. -/
def strStartsWith (s p : String) : Bool := p.toList.isPrefixOf s.toList

/-- Python containment of a single character in a string. -/
def strHasChar (s : String) (c : Char) : Bool := s.toList.contains c

/-- Python str.lower, as ASCII case folding over the characters. -/
def strLower (s : String) : String := .mk (s.toList.map Char.toLower)

/-- The id-shape test of resolve_product_id line 367: the reference
starts with one of the recognized category markers i_, f_, b_ (the
additional underscore test in the source is redundant but kept). -/
def looksLikeId (s : String) : Bool :=
  (strStartsWith s "i_" || strStartsWith s "f_" || strStartsWith s "b_") && strHasChar s '_'

/-- Case-insensitive exact name match of line 392. -/
def nameMatches (ref : String) (item : JVal) : Bool :=
  strLower (item.getD "name" (.jstr "")).asStr == strLower ref

/-- The lookup loop of lines 391-396: the first item whose name matches
yields item.get("itemId", reference). -/
def scanItems (ref : String) : List JVal → Option JVal
  | [] => none
  | item :: rest =>
    if nameMatches ref item then some (item.getD "itemId" (.jstr ref))
    else scanItems ref rest

/-- resolve_product_id: takes the merchant id and the user-supplied
reference; catalogResp is the response the ListItems fetch would
return.  Returns the resolved product id together with the trace of
requests issued. -/
def resolve_product_id (merchantId ref : String) (catalogResp : JVal) : JVal × List Req :=
  if looksLikeId ref then (.jstr ref, [])
  else if catalogResp.hasKey "error" then (.jstr ref, [.listItems merchantId])
  else
    match scanItems ref (catalogResp.getD "items" (.jarr [])).asArr with
    | some v => (v, [.listItems merchantId])
    | none => (.jstr ref, [.listItems merchantId])

/-! ### update_cart_item (lines 520-579) -/

/-- Terminal result of update_cart_item, one constructor per return
site. -/
inductive UpdateOutcome where
  | missingParams
  | updateError (e : JVal)
  | updateSuccess (cartState : JVal)
  | updateFailed (message : JVal)

/-- The UpdateCartItem request body of lines 552-556. -/
def updateBody (cid : String) (resolvedId : JVal) (quantity : ℚ) : JVal := .jobj
  [("customer_id", .jstr cid), ("product_id", resolvedId), ("quantity", .jnum quantity)]

/-- The merchant id update_cart_item resolves against (line 543): read
from the cart snapshot, defaulting to m_001 when the fetch failed or the
field is absent. -/
def updateMerchantId (env : Env) : String :=
  ((env.viewCart.getD "cart_state" (.jobj [])).getD "merchant_id" (.jstr "m_001")).asStr

/-- The requests one update_cart_item run issues after the required
arguments are present: the cart fetch, the resolution fetch when one
happens, and the upstream update itself. -/
def updateTrace (cid productRef : String) (quantity : ℚ) (env : Env) : List Req :=
  Req.viewCart cid :: (resolve_product_id (updateMerchantId env) productRef env.listItems).2 ++
    [Req.updateCartItem (updateBody cid
      (resolve_product_id (updateMerchantId env) productRef env.listItems).1 quantity)]

/-- update_cart_item: fetches the cart, takes the merchant id from its
cart_state (defaulting to m_001 when the fetch failed or the field is
absent), resolves the product reference against that merchant, and posts
the update upstream. -/
def update_cart_item (cid productRef : String) (quantity : ℚ) (env : Env) :
    UpdateOutcome × List Req :=
  if cid = "" || productRef = "" then (.missingParams, [])
  else if env.updateCart.hasKey "error" then
    (.updateError (env.updateCart.getD "error" .jnull), updateTrace cid productRef quantity env)
  else if (env.updateCart.getD "success" (.jbool false)).truthy then
    (.updateSuccess (env.updateCart.getD "cart_state" (.jobj [])),
      updateTrace cid productRef quantity env)
  else (.updateFailed (env.updateCart.getD "message" (.jstr "Unknown error")),
    updateTrace cid productRef quantity env)

/-! ### Binary64 arithmetic for the mandate amount

The source computes amount_limit as total_amount * 1.1 with Python
floats, i.e. one IEEE-754 binary64 multiplication.  The model keeps
amounts as exact rationals but rounds the product the way the hardware
does: round to nearest, ties to even, at 53 bits of precision.  The
literal 1.1 itself denotes the double nearest to 11/10.  Overflow and
subnormals are not modelled; cart totals live far inside the normal
range. -/

/-- Floor of the base-2 logarithm of a positive natural, by structural
recursion on a fuel bound (the number itself is always enough fuel). -/
def natLog2F : ℕ → ℕ → ℕ
  | 0, _ => 0
  | fuel + 1, n => if 2 ≤ n then natLog2F fuel (n / 2) + 1 else 0

/-- Ceiling of the base-2 logarithm of a positive natural, by structural
recursion on a fuel bound. -/
def natClog2F : ℕ → ℕ → ℕ
  | 0, _ => 0
  | fuel + 1, n => if 2 ≤ n then natClog2F fuel ((n + 1) / 2) + 1 else 0

/-- Floor of the base-2 logarithm of a positive rational. -/
def ilog2q (q : ℚ) : ℤ :=
  if 1 ≤ q then (natLog2F ⌊q⌋.toNat ⌊q⌋.toNat : ℤ)
  else -(natClog2F ⌈q⁻¹⌉.toNat ⌈q⁻¹⌉.toNat : ℤ)

/-- Round a rational to the nearest integer, ties to even. -/
def roundHalfEven (q : ℚ) : ℤ :=
  if q - ⌊q⌋ < 1 / 2 then ⌊q⌋
  else if 1 / 2 < q - ⌊q⌋ then ⌊q⌋ + 1
  else if ⌊q⌋ % 2 = 0 then ⌊q⌋ else ⌊q⌋ + 1

/-- Round an exact rational to the nearest binary64 value (round to
nearest, ties to even, 53-bit precision, normal range): the significand
q * 2^(52 - ilog2 q) lies in [2^52, 2^53) and is rounded to an
integer. -/
def roundDouble (q : ℚ) : ℚ :=
  if q = 0 then 0
  else if q < 0 then
    -((roundHalfEven (-q * (2 : ℚ) ^ (52 - ilog2q (-q))) : ℚ) * (2 : ℚ) ^ (ilog2q (-q) - 52))
  else
    (roundHalfEven (q * (2 : ℚ) ^ (52 - ilog2q q)) : ℚ) * (2 : ℚ) ^ (ilog2q q - 52)

/-- The exact value of the double written 1.1 in the source:
2476979795053773 * 2^-51. -/
def float11 : ℚ := 2476979795053773 / 2251799813685248

/-- IEEE-754 binary64 multiplication of two doubles given by their exact
rational values: the exact product, correctly rounded. -/
def floatMul (a b : ℚ) : ℚ := roundDouble (a * b)

/-! ### Request bodies shared by the two checkout variants -/

/-- The fixed placeholder shipping address of lines 689-696 / 836-843. -/
def shippingAddress : JVal := .jobj
  [("address_line1", .jstr "123 Main St"), ("city", .jstr "Jakarta"),
   ("state", .jstr "DKI Jakarta"), ("postal_code", .jstr "10110"),
   ("country", .jstr "Indonesia"), ("delivery_method", .jstr "standard")]

/-- CreateMandate body (lines 668-673 / 815-820): amount_limit is the
binary64 product of the frozen cart total with the double 1.1. -/
def mandateBody (cid : String) (totalAmount : JVal) (futureDate : String) : JVal := .jobj
  [("customer_id", .jstr cid), ("scope", .jstr "purchase"),
   ("amount_limit", .jnum (floatMul totalAmount.toRat float11)),
   ("expires_at", .jstr futureDate)]

/-- CreateIntent body (lines 685-697 / 832-844): cart_id equals the
customer id. -/
def intentBody (cid : String) (mandateId : JVal) : JVal := .jobj
  [("mandate_id", mandateId), ("customer_id", .jstr cid), ("cart_id", .jstr cid),
   ("shipping_address", shippingAddress)]

/-- Authorize body (line 709 / 860). -/
def authBody (intentId mandateId : JVal) : JVal := .jobj
  [("intent_id", intentId), ("mandate_id", mandateId)]

/-- Execute body (line 726 / 876). -/
def execBody (authorizationId intentId : JVal) : JVal := .jobj
  [("authorization_id", authorizationId), ("intent_id", intentId)]

/-! ### The checkout saga, first variant (checkout, lines 629-770)

Each stage function returns the terminal outcome together with the
requests issued from that stage onward; the caller prepends its own
request.  This mirrors the straight-line control flow of the source. -/

/-- The result envelope handling of line 737 / 887: the execution
payload may sit under a result key or at the top level. -/
def execResultData (env : Env) : JVal := env.execute.getD "result" env.execute

/-- checkout lines 725-770: execute, tolerate a nested result envelope,
extract the fields under either spelling, clear the cart (failures only
logged) and report success.  This variant never validates the invoice
URL. -/
def checkoutExecStage (cid : String) (env : Env) (authorizationId intentId : JVal) :
    Outcome × List Req :=
  if env.execute.hasKey "error" then
    (.executeError (env.execute.getD "error" .jnull),
      [.execute (execBody authorizationId intentId)])
  else
    (.success
      (((execResultData env).getD "order_id" .jnull).pyOr
        ((execResultData env).getD "orderId" .jnull))
      (((execResultData env).getD "payment_id" .jnull).pyOr
        ((execResultData env).getD "paymentId" .jnull))
      (((execResultData env).getD "execution_id" .jnull).pyOr
        ((execResultData env).getD "executionId" .jnull))
      ((execResultData env).getD "status" .jnull)
      (((execResultData env).getD "invoice_url" .jnull).pyOr
        ((execResultData env).getD "invoiceLink" .jnull)),
      [.execute (execBody authorizationId intentId), .clearCart cid])

/-- checkout lines 708-724: authorize; a falsy authorized flag aborts
with the upstream message before any Execute request. -/
def checkoutAuthStage (cid : String) (env : Env) (intentId mandateId : JVal) :
    Outcome × List Req :=
  if env.authorize.hasKey "error" then
    (.authorizeError (env.authorize.getD "error" .jnull), [.authorize (authBody intentId mandateId)])
  else if !(env.authorize.getD "authorized" (.jbool false)).truthy then
    (.authDenied (env.authorize.getD "message" (.jstr "Unknown authorization failure")),
      [.authorize (authBody intentId mandateId)])
  else
    ((checkoutExecStage cid env (env.authorize.getD "authorization_id" .jnull) intentId).1,
      .authorize (authBody intentId mandateId) ::
        (checkoutExecStage cid env (env.authorize.getD "authorization_id" .jnull) intentId).2)

/-- checkout lines 684-706: create the intent.  This variant does not
validate intent_id; a missing one flows to the next stage as null. -/
def checkoutIntentStage (cid : String) (env : Env) (mandateId : JVal) :
    Outcome × List Req :=
  if env.intent.hasKey "error" then
    (.intentError (env.intent.getD "error" .jnull), [.createIntent (intentBody cid mandateId)])
  else
    ((checkoutAuthStage cid env (env.intent.getD "intent_id" .jnull) mandateId).1,
      .createIntent (intentBody cid mandateId) ::
        (checkoutAuthStage cid env (env.intent.getD "intent_id" .jnull) mandateId).2)

/-- checkout lines 664-682: create the mandate.  mandate_id is read with
no validation and passed on (null when absent). -/
def checkoutMandateStage (cid : String) (env : Env) (totalAmount : JVal) :
    Outcome × List Req :=
  if env.mandate.hasKey "error" then
    (.mandateError (env.mandate.getD "error" .jnull),
      [.createMandate (mandateBody cid totalAmount env.futureDate)])
  else
    ((checkoutIntentStage cid env (env.mandate.getD "mandate_id" .jnull)).1,
      .createMandate (mandateBody cid totalAmount env.futureDate) ::
        (checkoutIntentStage cid env (env.mandate.getD "mandate_id" .jnull)).2)

/-- The cart snapshot fields every saga run reads once at the start:
cart_state, its item list and its total (lines 653-655 / 796-798). -/
def cartStateOf (env : Env) : JVal := env.viewCart.getD "cart_state" (.jobj [])

def cartItemsOf (env : Env) : JVal := (cartStateOf env).getD "items" (.jarr [])

def cartTotalOf (env : Env) : JVal := (cartStateOf env).getD "total_amount" (.jnum 0)

/-- checkout lines 629-770: the whole first saga variant. -/
def checkout (cid : String) (env : Env) : Outcome × List Req :=
  if cid = "" then (.missingCustomerId, [])
  else if env.viewCart.hasKey "error" then
    (.cartFetchError (env.viewCart.getD "error" .jnull), [.viewCart cid])
  else if !(cartItemsOf env).truthy then (.emptyCart, [.viewCart cid])
  else
    ((checkoutMandateStage cid env (cartTotalOf env)).1,
      .viewCart cid :: (checkoutMandateStage cid env (cartTotalOf env)).2)

/-! ### The checkout saga, second variant (checkout_cart, lines 772-924) -/

/-- checkout_cart lines 875-924: execute, tolerate a nested result
envelope, fall back to the locally generated order id, and abort with a
missing-invoice failure when neither invoice spelling is present. -/
def checkoutCartExecStage (cid : String) (env : Env)
    (authorizationId intentId genOrderId : JVal) : Outcome × List Req :=
  if env.execute.hasKey "error" then
    (.executeError (env.execute.getD "error" .jnull),
      [.execute (execBody authorizationId intentId)])
  else if !(((execResultData env).getD "invoice_url" .jnull).pyOr
      ((execResultData env).getD "invoiceLink" .jnull)).truthy then
    (.missingInvoice ((execResultData env).getD "status" .jnull),
      [.execute (execBody authorizationId intentId)])
  else
    (.success
      ((((execResultData env).getD "order_id" .jnull).pyOr
        ((execResultData env).getD "orderId" .jnull)).pyOr genOrderId)
      (((execResultData env).getD "payment_id" .jnull).pyOr
        ((execResultData env).getD "paymentId" .jnull))
      (((execResultData env).getD "execution_id" .jnull).pyOr
        ((execResultData env).getD "executionId" .jnull))
      ((execResultData env).getD "status" .jnull)
      (((execResultData env).getD "invoice_url" .jnull).pyOr
        ((execResultData env).getD "invoiceLink" .jnull)),
      [.execute (execBody authorizationId intentId), .clearCart cid])

/-- checkout_cart lines 859-873: authorize.  This variant never reads
the authorized flag: it only requires a truthy authorization_id. -/
def checkoutCartAuthStage (cid : String) (env : Env)
    (intentId mandateId genOrderId : JVal) : Outcome × List Req :=
  if env.authorize.hasKey "error" then
    (.authorizeError (env.authorize.getD "error" .jnull), [.authorize (authBody intentId mandateId)])
  else if !(env.authorize.getD "authorization_id" .jnull).truthy then
    (.noAuthorizationId, [.authorize (authBody intentId mandateId)])
  else
    ((checkoutCartExecStage cid env (env.authorize.getD "authorization_id" .jnull) intentId
        genOrderId).1,
      .authorize (authBody intentId mandateId) ::
        (checkoutCartExecStage cid env (env.authorize.getD "authorization_id" .jnull) intentId
          genOrderId).2)

/-- checkout_cart lines 831-857: create the intent; a falsy intent_id
aborts the run. -/
def checkoutCartIntentStage (cid : String) (env : Env) (mandateId genOrderId : JVal) :
    Outcome × List Req :=
  if env.intent.hasKey "error" then
    (.intentError (env.intent.getD "error" .jnull), [.createIntent (intentBody cid mandateId)])
  else if !(env.intent.getD "intent_id" .jnull).truthy then
    (.noIntentId, [.createIntent (intentBody cid mandateId)])
  else
    ((checkoutCartAuthStage cid env (env.intent.getD "intent_id" .jnull) mandateId genOrderId).1,
      .createIntent (intentBody cid mandateId) ::
        (checkoutCartAuthStage cid env (env.intent.getD "intent_id" .jnull) mandateId
          genOrderId).2)

/-- checkout_cart lines 811-829: create the mandate, identical in shape
to the first variant. -/
def checkoutCartMandateStage (cid : String) (env : Env) (totalAmount genOrderId : JVal) :
    Outcome × List Req :=
  if env.mandate.hasKey "error" then
    (.mandateError (env.mandate.getD "error" .jnull),
      [.createMandate (mandateBody cid totalAmount env.futureDate)])
  else
    ((checkoutCartIntentStage cid env (env.mandate.getD "mandate_id" .jnull) genOrderId).1,
      .createMandate (mandateBody cid totalAmount env.futureDate) ::
        (checkoutCartIntentStage cid env (env.mandate.getD "mandate_id" .jnull) genOrderId).2)

/-- checkout_cart lines 772-924: the whole second saga variant,
including the locally generated fallback order id ORD-<uuid hex 8>. -/
def checkout_cart (cid : String) (env : Env) : Outcome × List Req :=
  if cid = "" then (.missingCustomerId, [])
  else if env.viewCart.hasKey "error" then
    (.cartFetchError (env.viewCart.getD "error" .jnull), [.viewCart cid])
  else if !(cartItemsOf env).truthy then (.emptyCart, [.viewCart cid])
  else
    ((checkoutCartMandateStage cid env (cartTotalOf env)
        (.jstr ("ORD-" ++ env.uuidHex.take 8))).1,
      .viewCart cid :: (checkoutCartMandateStage cid env (cartTotalOf env)
        (.jstr ("ORD-" ++ env.uuidHex.take 8))).2)

/-! ### Shared helper lemmas about the stage functions -/

/-- Evaluating the binary64 product for the spec scenario: the double
25.0 times the double 1.1 is 7740561859543041 * 2^-48, the value Python
prints as 27.500000000000004. -/
lemma floatMul_25_float11 :
    floatMul 25 float11 = 7740561859543041 / 281474976710656 := by
  have hq : (25 : ℚ) * float11 = 61924494876344325 / 2251799813685248 := by
    norm_num [float11]
  have hfl1 : (⌊(61924494876344325 / 2251799813685248 : ℚ)⌋ : ℤ) = 27 := by
    rw [Int.floor_eq_iff]
    norm_num
  have hil : ilog2q (61924494876344325 / 2251799813685248) = 4 := by
    rw [ilog2q, if_pos (by norm_num), hfl1]
    decide
  have hsc : (61924494876344325 / 2251799813685248 : ℚ) * (2 : ℚ) ^ ((52 : ℤ) - 4) =
      61924494876344325 / 8 := by
    norm_num
  have hfl2 : (⌊(61924494876344325 / 8 : ℚ)⌋ : ℤ) = 7740561859543040 := by
    rw [Int.floor_eq_iff]
    norm_num
  have hrhe : roundHalfEven (61924494876344325 / 8) = 7740561859543041 := by
    rw [roundHalfEven, hfl2]
    rw [if_neg (by norm_num), if_pos (by norm_num)]
    norm_num
  rw [floatMul, hq, roundDouble, if_neg (by norm_num), if_neg (by norm_num), hil, hsc, hrhe]
  norm_num

/-- Skipping non-matching items at the front of the catalog scan. -/
lemma scanItems_append_of_not_matching (ref : String) (pre l : List JVal)
    (h : ∀ y ∈ pre, nameMatches ref y = false) :
    scanItems ref (pre ++ l) = scanItems ref l := by
  induction pre with
  | nil => rfl
  | cons x xs ih =>
    have hx := h x (List.mem_cons_self x xs)
    simp only [List.cons_append, scanItems, hx, Bool.false_eq_true, if_false]
    exact ih fun y hy => h y (List.mem_cons_of_mem _ hy)

/-- The catalog scan finds nothing when no item name matches. -/
lemma scanItems_eq_none_of_not_matching (ref : String) (l : List JVal)
    (h : ∀ y ∈ l, nameMatches ref y = false) :
    scanItems ref l = none := by
  induction l with
  | nil => rfl
  | cons x xs ih =>
    have hx := h x (List.mem_cons_self x xs)
    simp only [scanItems, hx, Bool.false_eq_true, if_false]
    exact ih fun y hy => h y (List.mem_cons_of_mem _ hy)

/-- The mandate stage of checkout always issues its CreateMandate request
first. -/
lemma checkoutMandateStage_trace_head (cid : String) (env : Env) (tv : JVal) :
    ∃ t, (checkoutMandateStage cid env tv).2 =
      .createMandate (mandateBody cid tv env.futureDate) :: t := by
  unfold checkoutMandateStage
  split <;> exact ⟨_, rfl⟩

/-- The mandate stage of checkout_cart always issues its CreateMandate
request first. -/
lemma checkoutCartMandateStage_trace_head (cid : String) (env : Env) (tv g : JVal) :
    ∃ t, (checkoutCartMandateStage cid env tv g).2 =
      .createMandate (mandateBody cid tv env.futureDate) :: t := by
  unfold checkoutCartMandateStage
  split <;> exact ⟨_, rfl⟩

/-- The intent stage of checkout always issues its CreateIntent request
first. -/
lemma checkoutIntentStage_trace_head (cid : String) (env : Env) (mid : JVal) :
    ∃ t, (checkoutIntentStage cid env mid).2 = .createIntent (intentBody cid mid) :: t := by
  unfold checkoutIntentStage
  split <;> exact ⟨_, rfl⟩

/-- The authorize stage of checkout always issues its Authorize request
first. -/
lemma checkoutAuthStage_trace_head (cid : String) (env : Env) (i m : JVal) :
    ∃ t, (checkoutAuthStage cid env i m).2 = .authorize (authBody i m) :: t := by
  unfold checkoutAuthStage
  repeat' split
  all_goals exact ⟨_, rfl⟩

/-- The intent stage of checkout_cart always issues its CreateIntent
request first. -/
lemma checkoutCartIntentStage_trace_head (cid : String) (env : Env) (mid g : JVal) :
    ∃ t, (checkoutCartIntentStage cid env mid g).2 = .createIntent (intentBody cid mid) :: t := by
  unfold checkoutCartIntentStage
  repeat' split
  all_goals exact ⟨_, rfl⟩

/-- The execute stage of checkout_cart always issues its Execute request
first. -/
lemma checkoutCartExecStage_trace_head (cid : String) (env : Env) (a i g : JVal) :
    ∃ t, (checkoutCartExecStage cid env a i g).2 = .execute (execBody a i) :: t := by
  unfold checkoutCartExecStage
  repeat' split
  all_goals exact ⟨_, rfl⟩

/-- No stage after the initial cart fetch of checkout issues another
ViewCart request (execute stage). -/
lemma checkoutExecStage_no_viewCart (cid : String) (env : Env) (a i : JVal) (c : String) :
    Req.viewCart c ∉ (checkoutExecStage cid env a i).2 := by
  unfold checkoutExecStage
  split <;> simp

/-- No stage after the initial cart fetch of checkout issues another
ViewCart request (authorize stage). -/
lemma checkoutAuthStage_no_viewCart (cid : String) (env : Env) (i m : JVal) (c : String) :
    Req.viewCart c ∉ (checkoutAuthStage cid env i m).2 := by
  unfold checkoutAuthStage
  repeat' split
  all_goals simp [checkoutExecStage_no_viewCart]

/-- No stage after the initial cart fetch of checkout issues another
ViewCart request (intent stage). -/
lemma checkoutIntentStage_no_viewCart (cid : String) (env : Env) (m : JVal) (c : String) :
    Req.viewCart c ∉ (checkoutIntentStage cid env m).2 := by
  unfold checkoutIntentStage
  repeat' split
  all_goals simp [checkoutAuthStage_no_viewCart]

/-- No stage after the initial cart fetch of checkout issues another
ViewCart request (mandate stage). -/
lemma checkoutMandateStage_no_viewCart (cid : String) (env : Env) (tv : JVal) (c : String) :
    Req.viewCart c ∉ (checkoutMandateStage cid env tv).2 := by
  unfold checkoutMandateStage
  repeat' split
  all_goals simp [checkoutIntentStage_no_viewCart]

/-- No stage after the initial cart fetch of checkout_cart issues
another ViewCart request (execute stage). -/
lemma checkoutCartExecStage_no_viewCart (cid : String) (env : Env) (a i g : JVal) (c : String) :
    Req.viewCart c ∉ (checkoutCartExecStage cid env a i g).2 := by
  unfold checkoutCartExecStage
  repeat' split
  all_goals simp

/-- No stage after the initial cart fetch of checkout_cart issues
another ViewCart request (authorize stage). -/
lemma checkoutCartAuthStage_no_viewCart (cid : String) (env : Env) (i m g : JVal) (c : String) :
    Req.viewCart c ∉ (checkoutCartAuthStage cid env i m g).2 := by
  unfold checkoutCartAuthStage
  repeat' split
  all_goals simp [checkoutCartExecStage_no_viewCart]

/-- No stage after the initial cart fetch of checkout_cart issues
another ViewCart request (intent stage). -/
lemma checkoutCartIntentStage_no_viewCart (cid : String) (env : Env) (m g : JVal) (c : String) :
    Req.viewCart c ∉ (checkoutCartIntentStage cid env m g).2 := by
  unfold checkoutCartIntentStage
  repeat' split
  all_goals simp [checkoutCartAuthStage_no_viewCart]

/-- No stage after the initial cart fetch of checkout_cart issues
another ViewCart request (mandate stage). -/
lemma checkoutCartMandateStage_no_viewCart (cid : String) (env : Env) (tv g : JVal) (c : String) :
    Req.viewCart c ∉ (checkoutCartMandateStage cid env tv g).2 := by
  unfold checkoutCartMandateStage
  repeat' split
  all_goals simp [checkoutCartIntentStage_no_viewCart]

/-- Once the mandate call has gone through, checkout can no longer
report a mandate-stage failure (execute stage). -/
lemma checkoutExecStage_ne_mandateError (cid : String) (env : Env) (a i e : JVal) :
    (checkoutExecStage cid env a i).1 ≠ .mandateError e := by
  unfold checkoutExecStage
  repeat' split
  all_goals simp

/-- Once the mandate call has gone through, checkout can no longer
report a mandate-stage failure (authorize stage). -/
lemma checkoutAuthStage_ne_mandateError (cid : String) (env : Env) (i m e : JVal) :
    (checkoutAuthStage cid env i m).1 ≠ .mandateError e := by
  unfold checkoutAuthStage
  repeat' split
  all_goals simp [checkoutExecStage_ne_mandateError]

/-- Once the mandate call has gone through, checkout can no longer
report a mandate-stage failure (intent stage). -/
lemma checkoutIntentStage_ne_mandateError (cid : String) (env : Env) (m e : JVal) :
    (checkoutIntentStage cid env m).1 ≠ .mandateError e := by
  unfold checkoutIntentStage
  repeat' split
  all_goals simp [checkoutAuthStage_ne_mandateError]

/-- Once the mandate call has gone through, checkout_cart can no longer
report a mandate-stage failure (execute stage). -/
lemma checkoutCartExecStage_ne_mandateError (cid : String) (env : Env) (a i g e : JVal) :
    (checkoutCartExecStage cid env a i g).1 ≠ .mandateError e := by
  unfold checkoutCartExecStage
  repeat' split
  all_goals simp

/-- Once the mandate call has gone through, checkout_cart can no longer
report a mandate-stage failure (authorize stage). -/
lemma checkoutCartAuthStage_ne_mandateError (cid : String) (env : Env) (i m g e : JVal) :
    (checkoutCartAuthStage cid env i m g).1 ≠ .mandateError e := by
  unfold checkoutCartAuthStage
  repeat' split
  all_goals simp [checkoutCartExecStage_ne_mandateError]

/-- Once the mandate call has gone through, checkout_cart can no longer
report a mandate-stage failure (intent stage). -/
lemma checkoutCartIntentStage_ne_mandateError (cid : String) (env : Env) (m g e : JVal) :
    (checkoutCartIntentStage cid env m g).1 ≠ .mandateError e := by
  unfold checkoutCartIntentStage
  repeat' split
  all_goals simp [checkoutCartAuthStage_ne_mandateError]

/-- A successful checkout_cart execute stage always carries a truthy
invoice link. -/
lemma checkoutCartExecStage_success_invoice (cid : String) (env : Env)
    (a i g o p e s inv : JVal)
    (h : (checkoutCartExecStage cid env a i g).1 = .success o p e s inv) :
    inv.truthy = true := by
  unfold checkoutCartExecStage at h
  repeat' split at h
  all_goals simp_all

/-- A successful checkout_cart authorize stage always carries a truthy
invoice link. -/
lemma checkoutCartAuthStage_success_invoice (cid : String) (env : Env)
    (i m g o p e s inv : JVal)
    (h : (checkoutCartAuthStage cid env i m g).1 = .success o p e s inv) :
    inv.truthy = true := by
  unfold checkoutCartAuthStage at h
  repeat' split at h <;> simp at h
  exact checkoutCartExecStage_success_invoice cid env _ i g o p e s inv h

/-- A successful checkout_cart intent stage always carries a truthy
invoice link. -/
lemma checkoutCartIntentStage_success_invoice (cid : String) (env : Env)
    (m g o p e s inv : JVal)
    (h : (checkoutCartIntentStage cid env m g).1 = .success o p e s inv) :
    inv.truthy = true := by
  unfold checkoutCartIntentStage at h
  repeat' split at h <;> simp at h
  exact checkoutCartAuthStage_success_invoice cid env _ m g o p e s inv h

/-- A successful checkout_cart mandate stage always carries a truthy
invoice link. -/
lemma checkoutCartMandateStage_success_invoice (cid : String) (env : Env)
    (tv g o p e s inv : JVal)
    (h : (checkoutCartMandateStage cid env tv g).1 = .success o p e s inv) :
    inv.truthy = true := by
  unfold checkoutCartMandateStage at h
  repeat' split at h <;> simp at h
  exact checkoutCartIntentStage_success_invoice cid env _ g o p e s inv h

/-! ### Concrete sample data used by witnesses and counterexamples

envBase is a fully successful run over the cart of the C3 scenario
(two items, total 25.0); the other environments override single
responses to exercise one failure at a time. -/

def sampleItems : JVal := .jarr
  [.jobj [("product_id", .jstr "i_001"), ("quantity", .jnum 2), ("unit_price", .jnum 10)],
   .jobj [("product_id", .jstr "i_002"), ("quantity", .jnum 1), ("unit_price", .jnum 5)]]

def sampleCartResponse : JVal := .jobj [("cart_state", .jobj
  [("items", sampleItems), ("total_amount", .jnum 25), ("merchant_id", .jstr "m_001")])]

def sampleCatalog : JVal := .jobj [("items", .jarr
  [.jobj [("itemId", .jstr "i_009"), ("name", .jstr "Banana"),
          ("price", .jnum 2), ("quantity", .jnum 50)],
   .jobj [("itemId", .jstr "i_001"), ("name", .jstr "Apple"),
          ("price", .jnum 10), ("quantity", .jnum 20)]])]

def envBase : Env :=
  { viewCart := sampleCartResponse
    listItems := sampleCatalog
    updateCart := .jobj [("success", .jbool true), ("cart_state", .jobj
      [("items", sampleItems), ("total_amount", .jnum 25), ("merchant_id", .jstr "m_001")])]
    mandate := .jobj [("mandate_id", .jstr "man_1")]
    intent := .jobj [("intent_id", .jstr "int_1")]
    authorize := .jobj [("authorized", .jbool true), ("authorization_id", .jstr "auth_1")]
    execute := .jobj [("result", .jobj
      [("invoiceLink", .jstr "https://pay.example/abc"), ("paymentId", .jstr "pay_1"),
       ("status", .jstr "PENDING")])]
    clearCart := .jobj [("success", .jbool true)]
    futureDate := "2027-10-12T00:00:00Z"
    uuidHex := "4f9d2c7a1b3e5d08" }

/-- Authorize answers with a denial but still includes an
authorization_id and a message. -/
def envAuthDenied : Env := { envBase with
  authorize := .jobj [("authorized", .jbool false), ("authorization_id", .jstr "auth_1"),
    ("message", .jstr "insufficient limit")] }

/-- Authorize answers with a denial, a message and no authorization_id. -/
def envAuthFalsy : Env := { envBase with
  authorize := .jobj [("authorized", .jbool false), ("message", .jstr "insufficient limit")] }

/-- Execute answers 2xx with neither invoice_url nor invoiceLink. -/
def envNoInvoice : Env := { envBase with
  execute := .jobj [("payment_id", .jstr "pay_1"), ("status", .jstr "PENDING")] }

/-- CreateIntent answers 2xx without an intent_id. -/
def envNoIntentId : Env := { envBase with intent := .jobj [("ok", .jbool true)] }

/-- CreateIntent fails at the transport level. -/
def envIntentError : Env := { envBase with
  intent := .jobj [("error", .jstr "AP2 request error: timeout")] }

/-- CreateMandate answers 2xx without a mandate_id. -/
def envNoMandateId : Env := { envBase with mandate := .jobj [("ok", .jbool true)] }

/-- The cart fetch succeeds but the cart holds no items. -/
def envEmptyCart : Env := { envBase with
  viewCart := .jobj [("cart_state", .jobj [("items", .jarr []), ("total_amount", .jnum 0),
    ("merchant_id", .jstr "m_001")])] }

/-- Both the cart fetch and the catalog fetch fail at the transport
level. -/
def envViewError : Env := { envBase with
  viewCart := .jobj [("error", .jstr "HTTP error: connect refused")]
  listItems := .jobj [("error", .jstr "HTTP error: connect refused")] }

/-! ### The claims -/

/-- Counterexample to claim C3: for the spec scenario snapshot with
total_amount 25.0 the CreateMandate request does not carry amount_limit
27.5.  The full checkout trace shows the request carries the binary64
product of 25.0 and 1.1, which is 7740561859543041 * 2^-48 (Python
prints it as 27.500000000000004) and differs from 55/2. -/
theorem C3_counterexample :
    (checkout "c_001" envBase).2 =
      [.viewCart "c_001",
       .createMandate (.jobj
         [("customer_id", .jstr "c_001"), ("scope", .jstr "purchase"),
          ("amount_limit", .jnum (floatMul 25 float11)),
          ("expires_at", .jstr "2027-10-12T00:00:00Z")]),
       .createIntent (intentBody "c_001" (.jstr "man_1")),
       .authorize (authBody (.jstr "int_1") (.jstr "man_1")),
       .execute (execBody (.jstr "auth_1") (.jstr "int_1")),
       .clearCart "c_001"] ∧
    floatMul 25 float11 = 7740561859543041 / 281474976710656 ∧
    floatMul 25 float11 ≠ 55 / 2 := by
  refine ⟨rfl, floatMul_25_float11, ?_⟩
  rw [floatMul_25_float11]
  norm_num

/-- Claim C3 as amended: in both checkout and checkout_cart, the
CreateMandate request carries as amount_limit the binary64
(round-to-nearest-even) product of the frozen snapshot total with the
double value of the literal 1.1; the request directly follows the single
ViewCart fetch and no further cart fetch occurs in the rest of the run.
For the snapshot with total_amount 25.0 the request hence carries
7740561859543041 * 2^-48 = 27.500000000000004, not exactly 27.5. -/
theorem C3_mandate_amount_limit (cid : String) (env : Env) (t : ℚ)
    (hcid : cid ≠ "")
    (hferr : env.viewCart.hasKey "error" = false)
    (hitems : (cartItemsOf env).truthy = true)
    (htotal : cartTotalOf env = .jnum t) :
    (∃ rest, (checkout cid env).2 =
        .viewCart cid :: .createMandate (.jobj
          [("customer_id", .jstr cid), ("scope", .jstr "purchase"),
           ("amount_limit", .jnum (floatMul t float11)),
           ("expires_at", .jstr env.futureDate)]) :: rest ∧
        ∀ c, Req.viewCart c ∉ rest) ∧
    (∃ rest, (checkout_cart cid env).2 =
        .viewCart cid :: .createMandate (.jobj
          [("customer_id", .jstr cid), ("scope", .jstr "purchase"),
           ("amount_limit", .jnum (floatMul t float11)),
           ("expires_at", .jstr env.futureDate)]) :: rest ∧
        ∀ c, Req.viewCart c ∉ rest) := by
  constructor
  · obtain ⟨tl, htl⟩ := checkoutMandateStage_trace_head cid env (.jnum t)
    refine ⟨tl, ?_, ?_⟩
    · simp [checkout, hcid, hferr, hitems, htotal, htl, mandateBody, JVal.toRat]
    · intro c hc
      exact checkoutMandateStage_no_viewCart cid env (.jnum t) c
        (htl ▸ List.mem_cons_of_mem _ hc)
  · obtain ⟨tl, htl⟩ := checkoutCartMandateStage_trace_head cid env (.jnum t)
      (.jstr ("ORD-" ++ env.uuidHex.take 8))
    refine ⟨tl, ?_, ?_⟩
    · simp [checkout_cart, hcid, hferr, hitems, htotal, htl, mandateBody, JVal.toRat]
    · intro c hc
      exact checkoutCartMandateStage_no_viewCart cid env (.jnum t)
        (.jstr ("ORD-" ++ env.uuidHex.take 8)) c (htl ▸ List.mem_cons_of_mem _ hc)

/-- Witness for the amended C3: on the spec scenario cart (total 25.0)
both variants send the correctly rounded amount 7740561859543041 * 2^-48
right after the single fetch. -/
theorem C3_mandate_amount_limit_witness :
    (∃ rest, (checkout "c_001" envBase).2 =
        .viewCart "c_001" :: .createMandate (.jobj
          [("customer_id", .jstr "c_001"), ("scope", .jstr "purchase"),
           ("amount_limit", .jnum (floatMul 25 float11)),
           ("expires_at", .jstr "2027-10-12T00:00:00Z")]) :: rest) ∧
    (∃ rest, (checkout_cart "c_001" envBase).2 =
        .viewCart "c_001" :: .createMandate (.jobj
          [("customer_id", .jstr "c_001"), ("scope", .jstr "purchase"),
           ("amount_limit", .jnum (floatMul 25 float11)),
           ("expires_at", .jstr "2027-10-12T00:00:00Z")]) :: rest) ∧
    floatMul 25 float11 = 7740561859543041 / 281474976710656 := by
  have h := C3_mandate_amount_limit "c_001" envBase 25 (by decide) rfl rfl rfl
  refine ⟨?_, ?_, floatMul_25_float11⟩
  · obtain ⟨rest, hr, -⟩ := h.1
    exact ⟨rest, hr⟩
  · obtain ⟨rest, hr, -⟩ := h.2
    exact ⟨rest, hr⟩

/-- Claim C4 (confirmed): on a successfully fetched cart whose item list
is empty, both variants return the empty-cart failure and their whole
trace is the single ViewCart request, so no payment-adapter request is
issued. -/
theorem C4_empty_cart (cid : String) (env : Env)
    (hcid : cid ≠ "")
    (hferr : env.viewCart.hasKey "error" = false)
    (hempty : cartItemsOf env =.jarr []) :
    (checkout cid env).1 = .emptyCart ∧ (checkout cid env).2 = [.viewCart cid] ∧
    (checkout_cart cid env).1 = .emptyCart ∧ (checkout_cart cid env).2 = [.viewCart cid] ∧
    (∀ r ∈ (checkout cid env).2, r.isPaymentReq = false) ∧
    (∀ r ∈ (checkout_cart cid env).2, r.isPaymentReq = false) := by
  have hfalsy : (cartItemsOf env).truthy = false := by rw [hempty]; rfl
  refine ⟨?_, ?_, ?_, ?_, ?_, ?_⟩ <;>
    simp [checkout, checkout_cart, hcid, hferr, hfalsy, Req.isPaymentReq]

/-- Witness for C4: a concrete empty-cart run. -/
theorem C4_empty_cart_witness :
    (checkout "c_001" envEmptyCart).1 = .emptyCart ∧
    (checkout_cart "c_001" envEmptyCart).1 = .emptyCart ∧
    (checkout "c_001" envEmptyCart).2 = [.viewCart "c_001"] := by
  have h := C4_empty_cart "c_001" envEmptyCart (by decide) rfl rfl
  exact ⟨h.1, h.2.2.1, h.2.1⟩

/-- Claim C6 (confirmed): the saga outcome never depends on the
cart-clear response; in particular, replacing it by a transport failure
leaves any Success outcome unchanged, for both variants. -/
theorem C6_clear_failure_preserves_success (cid : String) (env : Env)
    (eClear o p e s i : JVal) :
    ((checkout cid env).1 = .success o p e s i →
      (checkout cid { env with clearCart := .jobj [("error", eClear)] }).1 =
        .success o p e s i) ∧
    ((checkout_cart cid env).1 = .success o p e s i →
      (checkout_cart cid { env with clearCart := .jobj [("error", eClear)] }).1 =
        .success o p e s i) :=
  ⟨fun h => h, fun h => h⟩

/-- Witness for C6: the happy-path run still succeeds when the final
ClearCart call fails. -/
theorem C6_clear_failure_preserves_success_witness :
    (checkout "c_001" { envBase with clearCart := .jobj [("error", .jstr "boom")] }).1 =
      .success .jnull (.jstr "pay_1") .jnull (.jstr "PENDING")
        (.jstr "https://pay.example/abc") ∧
    (checkout_cart "c_001" { envBase with clearCart := .jobj [("error", .jstr "boom")] }).1 =
      .success (.jstr "ORD-4f9d2c7a") (.jstr "pay_1") .jnull (.jstr "PENDING")
        (.jstr "https://pay.example/abc") :=
  ⟨(C6_clear_failure_preserves_success "c_001" envBase (.jstr "boom") _ _ _ _ _).1 rfl,
   (C6_clear_failure_preserves_success "c_001" envBase (.jstr "boom") _ _ _ _ _).2 rfl⟩

/-- Claim C9 (confirmed): when CreateMandate succeeds at the transport
level but returns no mandate_id, neither variant fails at the mandate
stage; both issue a CreateIntent request whose mandate_id field is
null. -/
theorem C9_missing_mandate_id (cid : String) (env : Env)
    (hcid : cid ≠ "")
    (hferr : env.viewCart.hasKey "error" = false)
    (hitems : (cartItemsOf env).truthy = true)
    (hmand : env.mandate.hasKey "error" = false)
    (hmid : env.mandate.get? "mandate_id" = none) :
    (∃ rest, (checkout cid env).2 =
        .viewCart cid :: .createMandate (mandateBody cid (cartTotalOf env) env.futureDate) ::
          .createIntent (intentBody cid .jnull) :: rest) ∧
    (∀ e, (checkout cid env).1 ≠ .mandateError e) ∧
    (∃ rest, (checkout_cart cid env).2 =
        .viewCart cid :: .createMandate (mandateBody cid (cartTotalOf env) env.futureDate) ::
          .createIntent (intentBody cid .jnull) :: rest) ∧
    (∀ e, (checkout_cart cid env).1 ≠ .mandateError e) := by
  have hmidD : env.mandate.getD "mandate_id" .jnull = .jnull := by
    simp [JVal.getD, hmid]
  refine ⟨?_, ?_, ?_, ?_⟩
  · obtain ⟨tl, htl⟩ := checkoutIntentStage_trace_head cid env .jnull
    exact ⟨tl, by
      simp [checkout, hcid, hferr, hitems, checkoutMandateStage, hmand, hmidD, htl]⟩
  · intro e
    simp [checkout, hcid, hferr, hitems, checkoutMandateStage, hmand, hmidD]
    exact checkoutIntentStage_ne_mandateError cid env .jnull e
  · obtain ⟨tl, htl⟩ := checkoutCartIntentStage_trace_head cid env .jnull
      (.jstr ("ORD-" ++ env.uuidHex.take 8))
    exact ⟨tl, by
      simp [checkout_cart, hcid, hferr, hitems, checkoutCartMandateStage, hmand, hmidD, htl]⟩
  · intro e
    simp [checkout_cart, hcid, hferr, hitems, checkoutCartMandateStage, hmand, hmidD]
    exact checkoutCartIntentStage_ne_mandateError cid env .jnull
      (.jstr ("ORD-" ++ env.uuidHex.take 8)) e

/-- Witness for C9: concrete run where the mandate response carries no
mandate_id; the CreateIntent request goes out with a null mandate_id. -/
theorem C9_missing_mandate_id_witness :
    (∃ rest, (checkout "c_001" envNoMandateId).2 =
        .viewCart "c_001" :: .createMandate (mandateBody "c_001" (.jnum 25)
          "2027-10-12T00:00:00Z") :: .createIntent (intentBody "c_001" .jnull) :: rest) ∧
    (∀ e, (checkout_cart "c_001" envNoMandateId).1 ≠ .mandateError e) := by
  have h := C9_missing_mandate_id "c_001" envNoMandateId (by decide) rfl rfl rfl rfl
  exact ⟨h.1, h.2.2.2⟩

/-- Counterexample to claim C1: in checkout_cart, an Authorize response
with authorized=false but an authorization_id present does not stop the
run: the Execute request is issued and the saga even reports success,
instead of the claimed authorization-denied failure carrying the
message. -/
theorem C1_counterexample :
    (checkout_cart "c_001" envAuthDenied).2 =
      [.viewCart "c_001",
       .createMandate (mandateBody "c_001" (.jnum 25) "2027-10-12T00:00:00Z"),
       .createIntent (intentBody "c_001" (.jstr "man_1")),
       .authorize (authBody (.jstr "int_1") (.jstr "man_1")),
       .execute (execBody (.jstr "auth_1") (.jstr "int_1")),
       .clearCart "c_001"] ∧
    (checkout_cart "c_001" envAuthDenied).1 =
      .success (.jstr "ORD-4f9d2c7a") (.jstr "pay_1") .jnull (.jstr "PENDING")
        (.jstr "https://pay.example/abc") :=
  ⟨rfl, rfl⟩

/-- Claim C1 as amended: only the checkout variant inspects the
authorized flag: when it is falsy, checkout returns the
authorization-denied failure with the upstream message and issues no
Execute request.  checkout_cart never reads the flag: whenever a truthy
authorization_id is present it issues Execute, even against an explicit
authorized=false. -/
theorem C1_amended (cid : String) (env : Env)
    (hcid : cid ≠ "")
    (hferr : env.viewCart.hasKey "error" = false)
    (hitems : (cartItemsOf env).truthy = true)
    (hmand : env.mandate.hasKey "error" = false)
    (hint : env.intent.hasKey "error" = false)
    (hauth : env.authorize.hasKey "error" = false) :
    ((env.authorize.getD "authorized" (.jbool false)).truthy = false →
      (checkout cid env).1 =
        .authDenied (env.authorize.getD "message" (.jstr "Unknown authorization failure")) ∧
      ∀ b, Req.execute b ∉ (checkout cid env).2) ∧
    (env.authorize.getD "authorized" (.jbool false) = .jbool false →
      (env.intent.getD "intent_id" .jnull).truthy = true →
      (env.authorize.getD "authorization_id" .jnull).truthy = true →
      Req.execute (execBody (env.authorize.getD "authorization_id" .jnull)
        (env.intent.getD "intent_id" .jnull)) ∈ (checkout_cart cid env).2) := by
  constructor
  · intro hdenied
    constructor
    · simp [checkout, checkoutMandateStage, checkoutIntentStage, checkoutAuthStage,
        hcid, hferr, hitems, hmand, hint, hauth, hdenied]
    · intro b
      simp [checkout, checkoutMandateStage, checkoutIntentStage, checkoutAuthStage,
        hcid, hferr, hitems, hmand, hint, hauth, hdenied]
  · intro _ hiid haid
    obtain ⟨tl, htl⟩ := checkoutCartExecStage_trace_head cid env
      (env.authorize.getD "authorization_id" .jnull) (env.intent.getD "intent_id" .jnull)
      (.jstr ("ORD-" ++ env.uuidHex.take 8))
    simp [checkout_cart, checkoutCartMandateStage, checkoutCartIntentStage,
      checkoutCartAuthStage, hcid, hferr, hitems, hmand, hint, hiid, hauth, haid, htl]

/-- Witness for the amended C1: a falsy authorized flag makes checkout
return the denial with the upstream message, while checkout_cart runs
Execute against the very same denial as soon as an authorization_id is
present. -/
theorem C1_amended_witness :
    ((checkout "c_001" envAuthFalsy).1 = .authDenied (.jstr "insufficient limit") ∧
      ∀ b, Req.execute b ∉ (checkout "c_001" envAuthFalsy).2) ∧
    Req.execute (execBody (.jstr "auth_1") (.jstr "int_1")) ∈
      (checkout_cart "c_001" envAuthDenied).2 :=
  ⟨(C1_amended "c_001" envAuthFalsy (by decide) rfl rfl rfl rfl rfl).1 rfl,
   (C1_amended "c_001" envAuthDenied (by decide) rfl rfl rfl rfl rfl).2 rfl rfl rfl⟩

/-- Counterexample to claim C2: in checkout, an Execute response that is
2xx but carries neither invoice_url nor invoiceLink does not produce the
claimed missing-invoice failure: the run reports success whose invoice
URL is null. -/
theorem C2_counterexample :
    (checkout "c_001" envNoInvoice).1 =
      .success .jnull (.jstr "pay_1") .jnull (.jstr "PENDING") .jnull :=
  rfl

/-- Claim C2 as amended: only checkout_cart validates the invoice.  When
the (possibly result-nested) execute payload has both invoice spellings
falsy, checkout_cart returns the missing-invoice failure tagged with the
payload status, and every checkout_cart Success carries a truthy invoice
link.  checkout performs no such validation and can succeed with a null
invoice URL. -/
theorem C2_amended :
    (∀ cid env, cid ≠ "" →
      env.viewCart.hasKey "error" = false →
      (cartItemsOf env).truthy = true →
      env.mandate.hasKey "error" = false →
      env.intent.hasKey "error" = false →
      (env.intent.getD "intent_id" .jnull).truthy = true →
      env.authorize.hasKey "error" = false →
      (env.authorize.getD "authorization_id" .jnull).truthy = true →
      env.execute.hasKey "error" = false →
      (((execResultData env).getD "invoice_url" .jnull).pyOr
        ((execResultData env).getD "invoiceLink" .jnull)).truthy = false →
      (checkout_cart cid env).1 = .missingInvoice ((execResultData env).getD "status" .jnull)) ∧
    (∀ cid env o p e s inv,
      (checkout_cart cid env).1 = .success o p e s inv → inv.truthy = true) := by
  constructor
  · intro cid env hcid hferr hitems hmand hint hiid hauth haid hexec hinv
    simp [checkout_cart, checkoutCartMandateStage, checkoutCartIntentStage,
      checkoutCartAuthStage, checkoutCartExecStage, hcid, hferr, hitems, hmand, hint,
      hiid, hauth, haid, hexec, hinv]
  · intro cid env o p e s inv h
    unfold checkout_cart at h
    repeat' split at h
    all_goals simp at h
    exact checkoutCartMandateStage_success_invoice cid env _ _ o p e s inv h

/-- Witness for the amended C2: the same invoice-free execute payload
that lets checkout succeed makes checkout_cart fail with missing-invoice,
and the happy-path checkout_cart success carries a truthy invoice. -/
theorem C2_amended_witness :
    (checkout_cart "c_001" envNoInvoice).1 = .missingInvoice (.jstr "PENDING") ∧
    JVal.truthy (.jstr "https://pay.example/abc") = true :=
  ⟨C2_amended.1 "c_001" envNoInvoice (by decide) rfl rfl rfl rfl rfl rfl rfl rfl rfl,
   C2_amended.2 "c_001" envBase (.jstr "ORD-4f9d2c7a") (.jstr "pay_1") .jnull
     (.jstr "PENDING") (.jstr "https://pay.example/abc") rfl⟩

/-- Counterexample to claim C5: in checkout, a CreateIntent response
that is 2xx but carries no intent_id does not abort the run: the
Authorize and Execute requests are still issued (with a null intent_id)
and the saga reports success. -/
theorem C5_counterexample :
    (checkout "c_001" envNoIntentId).2 =
      [.viewCart "c_001",
       .createMandate (mandateBody "c_001" (.jnum 25) "2027-10-12T00:00:00Z"),
       .createIntent (intentBody "c_001" (.jstr "man_1")),
       .authorize (authBody .jnull (.jstr "man_1")),
       .execute (execBody (.jstr "auth_1") .jnull),
       .clearCart "c_001"] ∧
    (checkout "c_001" envNoIntentId).1 =
      .success .jnull (.jstr "pay_1") .jnull (.jstr "PENDING")
        (.jstr "https://pay.example/abc") :=
  ⟨rfl, rfl⟩

/-- Claim C5 as amended: on a transport failure of CreateIntent both
variants fail at the intent stage with the upstream error.  The
missing-intent_id check exists only in checkout_cart, which then aborts
before any Authorize or Execute request; checkout instead proceeds to
Authorize with a null intent_id. -/
theorem C5_amended (cid : String) (env : Env)
    (hcid : cid ≠ "")
    (hferr : env.viewCart.hasKey "error" = false)
    (hitems : (cartItemsOf env).truthy = true)
    (hmand : env.mandate.hasKey "error" = false) :
    (env.intent.hasKey "error" = true →
      (checkout cid env).1 = .intentError (env.intent.getD "error" .jnull) ∧
      (checkout_cart cid env).1 = .intentError (env.intent.getD "error" .jnull)) ∧
    (env.intent.hasKey "error" = false →
      (env.intent.getD "intent_id" .jnull).truthy = false →
      (checkout_cart cid env).1 = .noIntentId ∧
      (∀ b, Req.authorize b ∉ (checkout_cart cid env).2) ∧
      (∀ b, Req.execute b ∉ (checkout_cart cid env).2)) ∧
    (env.intent.hasKey "error" = false →
      env.intent.get? "intent_id" = none →
      Req.authorize (authBody .jnull (env.mandate.getD "mandate_id" .jnull)) ∈
        (checkout cid env).2) := by
  refine ⟨?_, ?_, ?_⟩
  · intro hie
    constructor
    · simp [checkout, checkoutMandateStage, checkoutIntentStage,
        hcid, hferr, hitems, hmand, hie]
    · simp [checkout_cart, checkoutCartMandateStage, checkoutCartIntentStage,
        hcid, hferr, hitems, hmand, hie]
  · intro hint hnid
    refine ⟨?_, ?_, ?_⟩
    · simp [checkout_cart, checkoutCartMandateStage, checkoutCartIntentStage,
        hcid, hferr, hitems, hmand, hint, hnid]
    · intro b
      simp [checkout_cart, checkoutCartMandateStage, checkoutCartIntentStage,
        hcid, hferr, hitems, hmand, hint, hnid]
    · intro b
      simp [checkout_cart, checkoutCartMandateStage, checkoutCartIntentStage,
        hcid, hferr, hitems, hmand, hint, hnid]
  · intro hint hnone
    have hnullid : env.intent.getD "intent_id" .jnull = .jnull := by
      simp [JVal.getD, hnone]
    obtain ⟨tl, htl⟩ := checkoutAuthStage_trace_head cid env .jnull
      (env.mandate.getD "mandate_id" .jnull)
    simp [checkout, checkoutMandateStage, checkoutIntentStage,
      hcid, hferr, hitems, hmand, hint, hnullid, htl]

/-- Witness for the amended C5: a transport failure yields the
intent-stage failure in both variants; a 2xx response without intent_id
stops checkout_cart before Authorize, while checkout sends Authorize
with a null intent_id. -/
theorem C5_amended_witness :
    ((checkout "c_001" envIntentError).1 =
        .intentError (.jstr "AP2 request error: timeout") ∧
      (checkout_cart "c_001" envIntentError).1 =
        .intentError (.jstr "AP2 request error: timeout")) ∧
    ((checkout_cart "c_001" envNoIntentId).1 = .noIntentId ∧
      ∀ b, Req.execute b ∉ (checkout_cart "c_001" envNoIntentId).2) ∧
    Req.authorize (authBody .jnull (.jstr "man_1")) ∈ (checkout "c_001" envNoIntentId).2 := by
  refine ⟨?_, ?_, ?_⟩
  · exact (C5_amended "c_001" envIntentError (by decide) rfl rfl rfl).1 rfl
  · have h := (C5_amended "c_001" envNoIntentId (by decide) rfl rfl rfl).2.1 rfl rfl
    exact ⟨h.1, h.2.2⟩
  · exact (C5_amended "c_001" envNoIntentId (by decide) rfl rfl rfl).2.2 rfl rfl

/-- Claim C7 (confirmed): resolve_product_id is total and covers the
four cases of the claim: a reference with a recognized id marker is
returned unchanged with no catalog fetch; on a catalog-fetch error the
reference comes back unchanged; otherwise the itemId of the first item
whose name matches case-insensitively is returned, and the reference
itself when nothing matches. -/
theorem C7_resolver :
    (∀ m ref cat, looksLikeId ref = true →
      resolve_product_id m ref cat = (.jstr ref, [])) ∧
    (∀ m ref cat, looksLikeId ref = false → cat.hasKey "error" = true →
      resolve_product_id m ref cat = (.jstr ref, [.listItems m])) ∧
    (∀ m ref cat pre item post pid, looksLikeId ref = false → cat.hasKey "error" = false →
      (cat.getD "items" (.jarr [])).asArr = pre ++ item :: post →
      (∀ y ∈ pre, nameMatches ref y = false) →
      nameMatches ref item = true →
      item.get? "itemId" = some (.jstr pid) →
      resolve_product_id m ref cat = (.jstr pid, [.listItems m])) ∧
    (∀ m ref cat, looksLikeId ref = false → cat.hasKey "error" = false →
      (∀ y ∈ (cat.getD "items" (.jarr [])).asArr, nameMatches ref y = false) →
      resolve_product_id m ref cat = (.jstr ref, [.listItems m])) := by
  refine ⟨?_, ?_, ?_, ?_⟩
  · intro m ref cat h
    simp [resolve_product_id, h]
  · intro m ref cat h1 h2
    simp [resolve_product_id, h1, h2]
  · intro m ref cat pre item post pid h1 h2 hsplit hpre hmatch hitem
    have hscan : scanItems ref (cat.getD "items" (.jarr [])).asArr = some (.jstr pid) := by
      rw [hsplit, scanItems_append_of_not_matching ref pre _ hpre]
      simp [scanItems, hmatch, JVal.getD, hitem]
    simp [resolve_product_id, h1, h2, hscan]
  · intro m ref cat h1 h2 hall
    have hscan := scanItems_eq_none_of_not_matching ref _ hall
    simp [resolve_product_id, h1, h2, hscan]

/-- Witness for C7: an id-shaped reference skips the fetch; a failed
fetch returns the reference; the name apple resolves (ignoring case and
skipping the non-matching first item) to i_001; an unknown name comes
back unchanged. -/
theorem C7_resolver_witness :
    resolve_product_id "m_001" "i_001" sampleCatalog = (.jstr "i_001", []) ∧
    resolve_product_id "m_001" "Apple" (.jobj [("error", .jstr "boom")]) =
      (.jstr "Apple", [.listItems "m_001"]) ∧
    resolve_product_id "m_001" "apple" sampleCatalog = (.jstr "i_001", [.listItems "m_001"]) ∧
    resolve_product_id "m_001" "Durian" sampleCatalog =
      (.jstr "Durian", [.listItems "m_001"]) := by
  refine ⟨?_, ?_, ?_, ?_⟩
  · exact C7_resolver.1 "m_001" "i_001" sampleCatalog (by decide)
  · exact C7_resolver.2.1 "m_001" "Apple" (.jobj [("error", .jstr "boom")]) (by decide) rfl
  · exact C7_resolver.2.2.1 "m_001" "apple" sampleCatalog
      [.jobj [("itemId", .jstr "i_009"), ("name", .jstr "Banana"),
              ("price", .jnum 2), ("quantity", .jnum 50)]]
      (.jobj [("itemId", .jstr "i_001"), ("name", .jstr "Apple"),
              ("price", .jnum 10), ("quantity", .jnum 20)])
      [] "i_001" (by decide) rfl rfl (by decide) (by decide) rfl
  · exact C7_resolver.2.2.2 "m_001" "Durian" sampleCatalog (by decide) rfl (by decide)

/-- Counterexample to claim C8: make_restate_request does not include
the retrievable response body text in its non-2xx error entry: the error
is built from the exception text alone, so the body text boom does not
occur in it. -/
theorem C8_counterexample :
    make_restate_request (.statusError 500 "boom" "Server error 500 for url example") =
      .jobj [("error", .jstr "HTTP error: Server error 500 for url example")] ∧
    strContainsSub "HTTP error: Server error 500 for url example" "boom" = false :=
  ⟨rfl, by decide⟩

/-- Claim C8 as amended: on every non-success transport outcome both
helpers return a dictionary carrying an error entry and never raise
(they are total functions of the outcome).  make_ap2_request formats its
non-2xx error as AP2 HTTP error <code>: <body text, or the exception
text when the body was not retrievable>, so status code and body are
included; make_restate_request formats every httpx.HTTPError, non-2xx
ones included, as HTTP error: <exception text> and appends neither the
status code nor the body beyond what the exception text itself holds. -/
theorem C8_amended :
    (∀ o : HttpOutcome, (∀ b, o ≠ .ok b) →
      (make_restate_request o).hasKey "error" = true ∧
      (make_ap2_request o).hasKey "error" = true) ∧
    (∀ code bodyText excText,
      make_restate_request (.statusError code bodyText excText) =
        .jobj [("error", .jstr ("HTTP error: " ++ excText))]) ∧
    (∀ excText,
      make_restate_request (.requestFailure excText) =
        .jobj [("error", .jstr ("HTTP error: " ++ excText))] ∧
      make_restate_request (.otherFailure excText) =
        .jobj [("error", .jstr ("Request failed: " ++ excText))]) ∧
    (∀ code bodyText excText,
      make_ap2_request (.statusError code bodyText excText) =
        .jobj [("error", .jstr ("AP2 HTTP error " ++ toString code ++ ": " ++
          (if bodyText == "" then excText else bodyText)))]) ∧
    (∀ excText,
      make_ap2_request (.requestFailure excText) =
        .jobj [("error", .jstr ("AP2 request error: " ++ excText))] ∧
      make_ap2_request (.otherFailure excText) =
        .jobj [("error", .jstr ("AP2 request failed: " ++ excText))]) := by
  refine ⟨?_, fun code bodyText excText => rfl, fun excText => ⟨rfl, rfl⟩,
    fun code bodyText excText => rfl, fun excText => ⟨rfl, rfl⟩⟩
  intro o h
  cases o with
  | ok b => exact absurd rfl (h b)
  | statusError code bodyText excText => exact ⟨rfl, rfl⟩
  | requestFailure excText => exact ⟨rfl, rfl⟩
  | otherFailure excText => exact ⟨rfl, rfl⟩

/-- Witness for the amended C8: a concrete connection failure yields an
error dictionary from both helpers. -/
theorem C8_amended_witness :
    (make_restate_request (.requestFailure "connection refused")).hasKey "error" = true ∧
    (make_ap2_request (.requestFailure "connection refused")).hasKey "error" = true :=
  C8_amended.1 (.requestFailure "connection refused")
    (fun _ h => HttpOutcome.noConfusion h)

/-- Claim C10 (confirmed): update_cart_item takes the merchant for name
resolution from the cart snapshot; when the ViewCart call failed (its
response is a bare error dictionary) or the cart_state has no
merchant_id, the literal default m_001 is used, and the upstream update
request is still issued, carrying whatever resolve_product_id returned
for the reference. -/
theorem C10_update_merchant_fallback (cid ref : String) (q : ℚ) (env : Env)
    (hcid : cid ≠ "") (href : ref ≠ "")
    (h : (∃ e, env.viewCart = .jobj [("error", e)]) ∨
      (env.viewCart.getD "cart_state" (.jobj [])).get? "merchant_id" = none) :
    updateMerchantId env = "m_001" ∧
    (update_cart_item cid ref q env).2 =
      Req.viewCart cid :: (resolve_product_id "m_001" ref env.listItems).2 ++
        [Req.updateCartItem (updateBody cid
          (resolve_product_id "m_001" ref env.listItems).1 q)] := by
  have hm : updateMerchantId env = "m_001" := by
    rcases h with ⟨e, he⟩ | hnone
    · rw [updateMerchantId, he]; rfl
    · rw [updateMerchantId]
      simp only [JVal.getD] at hnone ⊢
      rw [hnone]
      rfl
  refine ⟨hm, ?_⟩
  unfold update_cart_item
  repeat' split
  all_goals simp_all [updateTrace]

/-- Witness for C10: with both the cart fetch and the catalog fetch
failing, the update still goes out against m_001 with the unresolved
reference. -/
theorem C10_update_merchant_fallback_witness :
    (update_cart_item "c_001" "Apple" 3 envViewError).2 =
      [.viewCart "c_001", .listItems "m_001",
       .updateCartItem (updateBody "c_001" (.jstr "Apple") 3)] := by
  have h := C10_update_merchant_fallback "c_001" "Apple" 3 envViewError (by decide) (by decide)
    (Or.inl ⟨.jstr "HTTP error: connect refused", rfl⟩)
  rw [h.2]
  rfl

end OrderPipeline
